import Mathlib

/-!
Verification development for the PMC device-configuration tool
(`pmc_config_tool.py`).

The document model is embedded shallowly: a `Device` owns an ordered list
of device-level config pairs and an optional nested SDR section with its
own ordered pair list.  Config elements are modelled with both the
`variable` and `value` children present (the tool's data model: every
config pair carries a string key and a string value); XML plumbing such as
file loading is out of scope.  Python floating-point arithmetic is
modelled by exact rational arithmetic over `ℚ`, and Python's `int(...)` /
`float(...)` string parsers are modelled on the subset of literals the
tool handles (optional sign, decimal digits, optional fractional part,
`0x`/`0X` hexadecimal prefix; no exponents, underscores or surrounding
whitespace).
-/

namespace PMC

/-- One `<config>` element: a `<variable>` key and a `<value>` string. -/
structure ConfigPair where
  var : String
  val : String
deriving DecidableEq

/-- The `<sdr>` section of a device: its own `<name>` and config pairs. -/
structure Sdr where
  sname : Option String
  pairs : List ConfigPair
deriving DecidableEq

/-- A `<device>` element: its `<name>`, its device-level config pairs and
an optional nested `<sdr>` section.  Display-only attributes
(`dev_class`, `dev_name`, glyph geometry) play no role in the claims and
are omitted. -/
structure Device where
  name : Option String
  pairs : List ConfigPair
  sdr : Option Sdr
deriving DecidableEq

/-- Python `s.startswith(('0x', '0X'))`, decided on the character list. -/
def startsWith0x (s : String) : Bool :=
  match s.data with
  | '0' :: 'x' :: _ => true
  | '0' :: 'X' :: _ => true
  | _ => false

/-- Python `s.startswith('SDR_')`, decided on the character list. -/
def startsWithSDR (s : String) : Bool :=
  match s.data with
  | 'S' :: 'D' :: 'R' :: '_' :: _ => true
  | _ => false

/-- Python `s[4:]`: the variable with its `SDR_` prefix removed. -/
def stripSDR (s : String) : String :=
  String.mk (s.data.drop 4)

/-- Value of the first pair matching `v` in an ordered pair list
(the early-`return` loop pattern of the source). -/
def first_match (ps : List ConfigPair) (v : String) : Option String :=
  (ps.find? (fun p => p.var = v)).map (fun p => p.val)

/-- Value of the last pair matching `v` in an ordered pair list
(the overwrite-on-each-match scan pattern of the source). -/
def last_match (ps : List ConfigPair) (v : String) : Option String :=
  (ps.reverse.find? (fun p => p.var = v)).map (fun p => p.val)

/-- `get_sdr_config_value`: look a variable up among the SDR pairs only;
`none` when the device has no SDR section or no pair matches. -/
def get_sdr_config_value (d : Device) (v : String) : Option String :=
  match d.sdr with
  | none => none
  | some s => (s.pairs.find? (fun p => p.var = v)).map (fun p => p.val)

/-- One step of the device-scope `M_VAL`/`R_EXP` scan in
`get_mval_rexp_from_anywhere`: each matching pair overwrites the
accumulator field. -/
def scan_step (acc : Option String × Option String) (p : ConfigPair) :
    Option String × Option String :=
  if p.var = "M_VAL" then (some p.val, acc.2)
  else if p.var = "R_EXP" then (acc.1, some p.val)
  else acc

/-- The full device-scope scan for `M_VAL` and `R_EXP` (the `for` loop at
the top of `get_mval_rexp_from_anywhere`). -/
def scan_mval_rexp (ps : List ConfigPair) : Option String × Option String :=
  ps.foldl scan_step (none, none)

/-- `get_mval_rexp_from_anywhere`: scan the device-level pairs for
`M_VAL` and `R_EXP`; if both were seen there return that pair, otherwise
look each coefficient up independently in the SDR scope. -/
def get_mval_rexp_from_anywhere (d : Device) : Option String × Option String :=
  match scan_mval_rexp d.pairs with
  | (some m, some r) => (some m, some r)
  | _ => (get_sdr_config_value d "M_VAL", get_sdr_config_value d "R_EXP")

/-- `get_config_value`: an `SDR_`-prefixed variable is stripped and looked
up in the SDR scope only; an unprefixed variable is looked up in the
device-level pairs first and then, as a fallback, in the SDR pairs. -/
def get_config_value (d : Device) (v : String) : Option String :=
  if startsWithSDR v then
    match d.sdr with
    | none => none
    | some s => (s.pairs.find? (fun p => p.var = stripSDR v)).map (fun p => p.val)
  else
    match d.pairs.find? (fun p => p.var = v) with
    | some p => some p.val
    | none =>
      match d.sdr with
      | none => none
      | some s => (s.pairs.find? (fun p => p.var = v)).map (fun p => p.val)

/-- One Python-dict assignment `m[k] = v`: later assignments overwrite
earlier ones. -/
def dict_update (m : String → Option String) (k v : String) :
    String → Option String :=
  fun x => if x = k then some v else m x

/-- `get_device_config`: the flattened view built by assigning every
device-level pair into a dict and then every SDR pair under an
`SDR_`-prefixed key. -/
def get_device_config (d : Device) : String → Option String :=
  let base := d.pairs.foldl (fun m p => dict_update m p.var p.val) (fun _ => none)
  match d.sdr with
  | none => base
  | some s => s.pairs.foldl (fun m p => dict_update m ("SDR_" ++ p.var) p.val) base

/-- Replace the value of the first pair matching `v`; `none` when no pair
matches (the in-place `val_elem.text = new_value` loop of
`set_config_value`). -/
def set_first_match : List ConfigPair → String → String → Option (List ConfigPair)
  | [], _, _ => none
  | p :: rest, v, nv =>
    if p.var = v then some (⟨p.var, nv⟩ :: rest)
    else
      match set_first_match rest v nv with
      | some rest2 => some (p :: rest2)
      | none => none

/-- `set_config_value`: an `SDR_`-prefixed variable requires an SDR
section and an existing SDR pair (never auto-created); an unprefixed
variable overwrites the first device-scope match, else the first
SDR-scope match, else a brand-new pair is appended to the device-level
pairs.  Returns the success flag together with the updated device. -/
def set_config_value (d : Device) (v nv : String) : Bool × Device :=
  if startsWithSDR v then
    match d.sdr with
    | none => (false, d)
    | some s =>
      match set_first_match s.pairs (stripSDR v) nv with
      | some ps => (true, { d with sdr := some { s with pairs := ps } })
      | none => (false, d)
  else
    match set_first_match d.pairs v nv with
    | some ps => (true, { d with pairs := ps })
    | none =>
      match d.sdr with
      | some s =>
        match set_first_match s.pairs v nv with
        | some ps => (true, { d with sdr := some { s with pairs := ps } })
        | none => (true, { d with pairs := d.pairs ++ [⟨v, nv⟩] })
      | none => (true, { d with pairs := d.pairs ++ [⟨v, nv⟩] })

/-- Value of an unbroken run of decimal digits; `none` on an empty run or
any non-digit character (the core of Python's `int(s)`). -/
def decNat (cs : List Char) : Option Nat :=
  if cs.isEmpty then none
  else cs.foldl
    (fun acc c => acc.bind (fun n => if c.isDigit then some (10 * n + (c.toNat - 48)) else none))
    (some 0)

/-- Value of one hexadecimal digit, accepting both letter cases. -/
def hexDigitVal (c : Char) : Option Nat :=
  if c.isDigit then some (c.toNat - 48)
  else if 'a' ≤ c ∧ c ≤ 'f' then some (c.toNat - 87)
  else if 'A' ≤ c ∧ c ≤ 'F' then some (c.toNat - 55)
  else none

/-- Value of an unbroken run of hexadecimal digits; `none` on an empty run
or any non-hex character (the core of Python's `int(s, 16)` after the
`0x` prefix). -/
def hexNat (cs : List Char) : Option Nat :=
  if cs.isEmpty then none
  else cs.foldl
    (fun acc c => acc.bind (fun n => (hexDigitVal c).map (fun dg => 16 * n + dg)))
    (some 0)

/-- Python `int(s)` on the literals the tool handles: an optional sign
followed by decimal digits. -/
def pyIntDec (s : String) : Option ℤ :=
  match s.data with
  | [] => none
  | c :: cs =>
    if c = '-' then (decNat cs).map (fun n => -(n : ℤ))
    else if c = '+' then (decNat cs).map (fun n => (n : ℤ))
    else (decNat (c :: cs)).map (fun n => (n : ℤ))

/-- The coefficient parse of the source:
`int(s, 16) if s.startswith(('0x', '0X')) else int(s, 10)`. -/
def parseIntPy (s : String) : Option ℤ :=
  if startsWith0x s then (hexNat (s.data.drop 2)).map (fun n => (n : ℤ))
  else pyIntDec s

/-- Magnitude part of Python `float(s)`: decimal digits with an optional
`.` and fractional digits (`"5"`, `"5."`, `".5"`, `"5.25"`), as an exact
rational. -/
def pyFloatCore (cs : List Char) : Option ℚ :=
  let ip := cs.takeWhile (fun c => c ≠ '.')
  match cs.drop ip.length with
  | [] => (decNat ip).map (fun n => (n : ℚ))
  | _ :: fp =>
    if fp.any (fun c => !c.isDigit) then none
    else if ip.isEmpty then
      (decNat fp).map (fun n => (n : ℚ) / (10 : ℚ) ^ fp.length)
    else
      (decNat ip).bind (fun i =>
        if fp.isEmpty then some ((i : ℚ))
        else (decNat fp).map (fun f => (i : ℚ) + (f : ℚ) / (10 : ℚ) ^ fp.length))

/-- Python `float(s)` on the literals the tool handles (optional sign,
no exponent form), as an exact rational. -/
def pyFloat (s : String) : Option ℚ :=
  match s.data with
  | [] => none
  | c :: cs =>
    if c = '-' then (pyFloatCore cs).map (fun q => -q)
    else if c = '+' then pyFloatCore cs
    else pyFloatCore (c :: cs)

/-- The raw-value parse of `convert_raw_to_real`:
`float(int(raw, 16))` for a `0x`/`0X`-prefixed string, else
`float(raw)`. -/
def parseRawPy (s : String) : Option ℚ :=
  if startsWith0x s then (hexNat (s.data.drop 2)).map (fun n => (n : ℚ))
  else pyFloat s

/-- Python's built-in `round`: nearest integer, ties to the even
neighbour. -/
def pyRound (q : ℚ) : ℤ :=
  let n : ℤ := ⌊q⌋
  let frac : ℚ := q - (n : ℚ)
  if frac < 1 / 2 then n
  else if 1 / 2 < frac then n + 1
  else if n % 2 = 0 then n else n + 1

/-- The distinguishable failure diagnostics of the two conversion
routines. -/
inductive ConvError where
  | missingCoefficients
  | parseError
  | divisionByZero
deriving DecidableEq

/-- `convert_raw_to_real`: resolve `M_VAL`/`R_EXP`, parse them and the
raw value, and return `M_VAL * raw * 10 ^ R_EXP`. -/
def convert_raw_to_real (d : Device) (raw : String) : Except ConvError ℚ :=
  match get_mval_rexp_from_anywhere d with
  | (some ms, some rs) =>
    match parseIntPy ms, parseIntPy rs, parseRawPy raw with
    | some m, some e, some rv => .ok ((m : ℚ) * rv * (10 : ℚ) ^ e)
    | _, _, _ => .error .parseError
  | _ => .error .missingCoefficients

/-- `convert_real_to_raw`: resolve and parse the coefficients, parse the
real value as a float, fail if the denominator `M_VAL * 10 ^ R_EXP` is
zero, else divide and round to the nearest integer. -/
def convert_real_to_raw (d : Device) (real : String) : Except ConvError ℤ :=
  match get_mval_rexp_from_anywhere d with
  | (some ms, some rs) =>
    match parseIntPy ms, parseIntPy rs, pyFloat real with
    | some m, some e, some rv =>
      let denom : ℚ := (m : ℚ) * (10 : ℚ) ^ e
      if denom = 0 then .error .divisionByZero
      else .ok (pyRound (rv / denom))
    | _, _, _ => .error .parseError
  | _ => .error .missingCoefficients

section Lookup

lemma last_match_eq_none_iff (ps : List ConfigPair) (v : String) :
    last_match ps v = none ↔ ∀ p ∈ ps, p.var ≠ v := by
  unfold last_match
  simp [Option.map_eq_none, List.find?_eq_none]

lemma last_match_some_mem {ps : List ConfigPair} {v x : String}
    (h : last_match ps v = some x) : ∃ p ∈ ps, p.var = v ∧ p.val = x := by
  unfold last_match at h
  rcases Option.map_eq_some.mp h with ⟨p, hp, hval⟩
  refine ⟨p, ?_, ?_, hval⟩
  · exact List.mem_reverse.mp (List.mem_of_find?_eq_some hp)
  · simpa using List.find?_some hp

lemma last_match_isSome_of_mem {ps : List ConfigPair} {v : String}
    (h : ∃ p ∈ ps, p.var = v) : ∃ x, last_match ps v = some x := by
  rcases hlm : last_match ps v with _ | x
  · rcases h with ⟨p, hmem, hvar⟩
    exact absurd hvar ((last_match_eq_none_iff ps v).mp hlm p hmem)
  · exact ⟨x, rfl⟩

lemma last_match_cons (p : ConfigPair) (rest : List ConfigPair) (v : String) :
    last_match (p :: rest) v =
      (last_match rest v).or (if p.var = v then some p.val else none) := by
  unfold last_match
  rw [List.reverse_cons, List.find?_append]
  rcases h : rest.reverse.find? (fun q => q.var = v) with _ | q <;> rw [h]
  · by_cases hp : p.var = v <;> simp [List.find?, hp]
  · simp

lemma scan_step_fst (a : Option String × Option String) (p : ConfigPair) :
    (scan_step a p).1 = ((if p.var = "M_VAL" then some p.val else none).or a.1) := by
  unfold scan_step
  by_cases h1 : p.var = "M_VAL" <;> by_cases h2 : p.var = "R_EXP" <;> simp [h1, h2]

lemma scan_step_snd (a : Option String × Option String) (p : ConfigPair) :
    (scan_step a p).2 = ((if p.var = "R_EXP" then some p.val else none).or a.2) := by
  unfold scan_step
  by_cases h1 : p.var = "M_VAL" <;> by_cases h2 : p.var = "R_EXP" <;>
    simp_all

lemma foldl_scan_step (ps : List ConfigPair) (a : Option String × Option String) :
    ps.foldl scan_step a =
      ((last_match ps "M_VAL").or a.1, (last_match ps "R_EXP").or a.2) := by
  induction ps generalizing a with
  | nil => simp [last_match]
  | cons p rest ih =>
    rw [List.foldl_cons, ih, last_match_cons, last_match_cons,
      Option.or_assoc, Option.or_assoc, scan_step_fst, scan_step_snd]

lemma scan_mval_rexp_eq (ps : List ConfigPair) :
    scan_mval_rexp ps = (last_match ps "M_VAL", last_match ps "R_EXP") := by
  rw [scan_mval_rexp, foldl_scan_step]
  simp

end Lookup

/-- A sample device carrying `M_VAL`/`R_EXP` in both scopes with
different values. -/
def devBoth : Device :=
  ⟨some "both", [⟨"M_VAL", "2"⟩, ⟨"R_EXP", "-1"⟩],
    some ⟨some "s0", [⟨"M_VAL", "7"⟩, ⟨"R_EXP", "3"⟩, ⟨"UPPER_CRITICAL", "0x64"⟩]⟩⟩

/-- C1: `get_mval_rexp_from_anywhere` returns the device-scope values of
`M_VAL` and `R_EXP` as an atomic pair whenever both variables are present
among the device-level pairs, independently of the SDR contents; when at
least one is absent there it looks `M_VAL` and `R_EXP` up independently
in the SDR scope, so the result is a pair of `some`s only when both live
in device scope or both live in SDR scope — a pair split across scopes is
never returned. -/
theorem get_mval_rexp_atomic_scope (d : Device) :
    ((∃ p ∈ d.pairs, p.var = "M_VAL") → (∃ p ∈ d.pairs, p.var = "R_EXP") →
      ∃ mv rv,
        get_mval_rexp_from_anywhere d = (some mv, some rv) ∧
        (∃ p ∈ d.pairs, p.var = "M_VAL" ∧ p.val = mv) ∧
        (∃ p ∈ d.pairs, p.var = "R_EXP" ∧ p.val = rv) ∧
        ∀ s, get_mval_rexp_from_anywhere { d with sdr := s } = (some mv, some rv)) ∧
    (¬ ((∃ p ∈ d.pairs, p.var = "M_VAL") ∧ (∃ p ∈ d.pairs, p.var = "R_EXP")) →
      get_mval_rexp_from_anywhere d =
        (get_sdr_config_value d "M_VAL", get_sdr_config_value d "R_EXP")) ∧
    (∀ mv rv, get_mval_rexp_from_anywhere d = (some mv, some rv) →
      ((∃ p ∈ d.pairs, p.var = "M_VAL" ∧ p.val = mv) ∧
        (∃ p ∈ d.pairs, p.var = "R_EXP" ∧ p.val = rv)) ∨
      (get_sdr_config_value d "M_VAL" = some mv ∧
        get_sdr_config_value d "R_EXP" = some rv)) := by
  refine ⟨?_, ?_, ?_⟩
  · intro hM hR
    obtain ⟨mv, hmv⟩ := last_match_isSome_of_mem hM
    obtain ⟨rv, hrv⟩ := last_match_isSome_of_mem hR
    refine ⟨mv, rv, ?_, ?_, ?_, ?_⟩
    · unfold get_mval_rexp_from_anywhere
      rw [scan_mval_rexp_eq, hmv, hrv]
    · exact last_match_some_mem hmv
    · exact last_match_some_mem hrv
    · intro s
      unfold get_mval_rexp_from_anywhere
      rw [show ({ d with sdr := s } : Device).pairs = d.pairs from rfl,
        scan_mval_rexp_eq, hmv, hrv]
  · intro hnot
    unfold get_mval_rexp_from_anywhere
    rw [scan_mval_rexp_eq]
    rcases hmv : last_match d.pairs "M_VAL" with _ | mv <;>
      rcases hrv : last_match d.pairs "R_EXP" with _ | rv
    · rfl
    · rfl
    · rfl
    · exfalso
      obtain ⟨p1, hp1, hv1, _⟩ := last_match_some_mem hmv
      obtain ⟨p2, hp2, hv2, _⟩ := last_match_some_mem hrv
      exact hnot ⟨⟨p1, hp1, hv1⟩, ⟨p2, hp2, hv2⟩⟩
  · intro mv rv h
    unfold get_mval_rexp_from_anywhere at h
    rw [scan_mval_rexp_eq] at h
    rcases hmv : last_match d.pairs "M_VAL" with _ | mv0 <;>
      rcases hrv : last_match d.pairs "R_EXP" with _ | rv0 <;>
        rw [hmv, hrv] at h
    · exact Or.inr ⟨congrArg Prod.fst h, congrArg Prod.snd h⟩
    · exact Or.inr ⟨congrArg Prod.fst h, congrArg Prod.snd h⟩
    · exact Or.inr ⟨congrArg Prod.fst h, congrArg Prod.snd h⟩
    · cases Option.some.inj (congrArg Prod.fst h)
      cases Option.some.inj (congrArg Prod.snd h)
      exact Or.inl ⟨last_match_some_mem hmv, last_match_some_mem hrv⟩

/-- Witness for C1: on `devBoth`, whose device scope has both
coefficients, the device-scope pair `("2", "-1")` is returned even though
the SDR scope holds `("7", "3")`. -/
theorem get_mval_rexp_atomic_scope_witness :
    ∃ mv rv,
      get_mval_rexp_from_anywhere devBoth = (some mv, some rv) ∧
      (∃ p ∈ devBoth.pairs, p.var = "M_VAL" ∧ p.val = mv) ∧
      (∃ p ∈ devBoth.pairs, p.var = "R_EXP" ∧ p.val = rv) ∧
      ∀ s, get_mval_rexp_from_anywhere { devBoth with sdr := s } = (some mv, some rv) :=
  (get_mval_rexp_atomic_scope devBoth).1
    ⟨⟨"M_VAL", "2"⟩, by decide, by decide⟩
    ⟨⟨"R_EXP", "-1"⟩, by decide, by decide⟩

/-- A sample device where the unprefixed variable `FOO` exists in both
scopes with different values. -/
def devShadow : Device :=
  ⟨some "shadow", [⟨"FOO", "dev"⟩],
    some ⟨some "s1", [⟨"FOO", "sdr"⟩, ⟨"BAR", "b"⟩]⟩⟩

/-- C2: `get_config_value` on an `SDR_`-prefixed variable strips the
prefix and coincides with the SDR-only lookup (so it never falls back to
device scope); on an unprefixed variable it returns the first device-scope
match as stored, and only when no device-scope pair matches does it fall
back to the SDR-only lookup. -/
theorem get_config_value_precedence (d : Device) (v : String) :
    (startsWithSDR v = true →
      get_config_value d v = get_sdr_config_value d (stripSDR v)) ∧
    (startsWithSDR v = false →
      (∀ p, d.pairs.find? (fun q => q.var = v) = some p →
        get_config_value d v = some p.val) ∧
      (d.pairs.find? (fun q => q.var = v) = none →
        get_config_value d v = get_sdr_config_value d v)) := by
  constructor
  · intro hv
    unfold get_config_value get_sdr_config_value
    rw [hv]
    rcases d.sdr with _ | s <;> simp
  · intro hv
    constructor
    · intro p hp
      unfold get_config_value
      rw [hv, hp]
      simp
    · intro hp
      unfold get_config_value get_sdr_config_value
      rw [hv, hp]
      rcases d.sdr with _ | s <;> simp

/-- Witness for C2: on `devShadow`, `SDR_FOO` resolves in SDR scope only
(to `"sdr"`, not the device-scope `"dev"`), and the unprefixed `FOO`
resolves to the device-scope value `"dev"`, while `BAR` falls back to the
SDR scope. -/
theorem get_config_value_precedence_witness :
    get_config_value devShadow "SDR_FOO" = get_sdr_config_value devShadow "FOO" ∧
    get_config_value devShadow "FOO" = some "dev" ∧
    get_config_value devShadow "BAR" = get_sdr_config_value devShadow "BAR" :=
  ⟨by
    have h := (get_config_value_precedence devShadow "SDR_FOO").1 (by decide)
    simpa using h,
   ((get_config_value_precedence devShadow "FOO").2 (by decide)).1
     ⟨"FOO", "dev"⟩ (by decide),
   ((get_config_value_precedence devShadow "BAR").2 (by decide)).2 (by decide)⟩

section Dict

lemma option_map_or {α β : Type} (f : α → β) (x y : Option α) :
    (x.or y).map f = (x.map f).or (y.map f) := by
  rcases x <;> rfl

lemma find?_kv (key : ConfigPair → String) (l : List ConfigPair) (k : String) :
    ((l.map (fun p => (key p, p.val))).find? (fun q => q.1 = k)).map (fun q => q.2) =
      (l.find? (fun p => key p = k)).map (fun p => p.val) := by
  rw [List.find?_map]
  have hpred : ((fun q : String × String => decide (q.1 = k)) ∘
      (fun p : ConfigPair => (key p, p.val))) = (fun p : ConfigPair => decide (key p = k)) := rfl
  rw [hpred, Option.map_map]
  rfl

lemma foldl_dict_update (f : ConfigPair → String) (ps : List ConfigPair)
    (base : String → Option String) (k : String) :
    (ps.foldl (fun m p => dict_update m (f p) p.val) base) k =
      ((ps.reverse.find? (fun p => f p = k)).map (fun p => p.val)).or (base k) := by
  induction ps generalizing base with
  | nil => simp
  | cons p rest ih =>
    rw [List.foldl_cons, ih, List.reverse_cons, List.find?_append]
    rcases h : rest.reverse.find? (fun q => f q = k) with _ | q
    · by_cases hp : f p = k
      · simp [List.find?, hp, dict_update]
      · have hk : ¬ k = f p := fun hk => hp hk.symm
        simp [List.find?, hp, dict_update, hk]
    · simp

end Dict

/-- The flattened key/value assignment sequence `get_device_config`
performs: device-level pairs first, then SDR pairs under `SDR_`-prefixed
keys. -/
def flat_assignments (d : Device) : List (String × String) :=
  d.pairs.map (fun p => (p.var, p.val)) ++
    (match d.sdr with
     | none => []
     | some s => s.pairs.map (fun p => ("SDR_" ++ p.var, p.val)))

/-- A device whose scopes contain duplicate keys, separating first-match
from last-match lookup semantics. -/
def devDup : Device :=
  ⟨some "dup",
    [⟨"FOO", "a"⟩, ⟨"FOO", "b"⟩, ⟨"M_VAL", "1"⟩, ⟨"M_VAL", "2"⟩, ⟨"R_EXP", "0"⟩],
    none⟩

/-- Counterexample to C3 as stated: on `devDup`, whose device scope holds
`FOO` twice and `M_VAL` twice, both the flattened view of
`get_device_config` and the device-scope scan of
`get_mval_rexp_from_anywhere` yield the LAST duplicate's value, not the
first one. -/
theorem lookup_first_match_counterexample :
    get_device_config devDup "FOO" = some "b" ∧
    first_match devDup.pairs "FOO" = some "a" ∧
    ¬ get_device_config devDup "FOO" = first_match devDup.pairs "FOO" ∧
    get_mval_rexp_from_anywhere devDup = (some "2", some "0") ∧
    first_match devDup.pairs "M_VAL" = some "1" ∧
    ¬ (get_mval_rexp_from_anywhere devDup).1 = first_match devDup.pairs "M_VAL" := by
  refine ⟨by decide, by decide, by decide, by decide, by decide, by decide⟩

/-- C3 amended: `get_config_value` (a lookup with early return) uses the
FIRST matching pair, but the device-scope scan inside
`get_mval_rexp_from_anywhere` and the flattened view built by
`get_device_config` keep overwriting and therefore use the LAST matching
pair in document order. -/
theorem lookup_duplicate_semantics (d : Device) (v k : String) :
    (startsWithSDR v = false → ∀ p, d.pairs.find? (fun q => q.var = v) = some p →
      get_config_value d v = some p.val) ∧
    scan_mval_rexp d.pairs = (last_match d.pairs "M_VAL", last_match d.pairs "R_EXP") ∧
    get_device_config d k =
      ((flat_assignments d).reverse.find? (fun q => q.1 = k)).map (fun q => q.2) := by
  refine ⟨?_, scan_mval_rexp_eq d.pairs, ?_⟩
  · intro hv p hp
    exact ((get_config_value_precedence d v).2 hv).1 p hp
  · unfold get_device_config flat_assignments
    rcases hs : d.sdr with _ | s <;> dsimp only
    · rw [foldl_dict_update (fun p => p.var) d.pairs (fun _ => none) k]
      simp only [List.append_nil, Option.or_none]
      rw [← List.map_reverse, find?_kv (fun p => p.var)]
    · rw [foldl_dict_update (fun p => "SDR_" ++ p.var) s.pairs _ k,
        foldl_dict_update (fun p => p.var) d.pairs (fun _ => none) k]
      simp only [Option.or_none, List.reverse_append]
      rw [List.find?_append, ← List.map_reverse, ← List.map_reverse, option_map_or,
        find?_kv (fun p => "SDR_" ++ p.var), find?_kv (fun p => p.var)]

/-- Witness for the amended C3: on `devDup`, `get_config_value` returns
the first `FOO` value while the scan and the flattened view return the
last duplicates. -/
theorem lookup_duplicate_semantics_witness :
    get_config_value devDup "FOO" = some "a" ∧
    scan_mval_rexp devDup.pairs =
      (last_match devDup.pairs "M_VAL", last_match devDup.pairs "R_EXP") ∧
    get_device_config devDup "FOO" =
      ((flat_assignments devDup).reverse.find? (fun q => q.1 = "FOO")).map
        (fun q => q.2) :=
  ⟨(lookup_duplicate_semantics devDup "FOO" "FOO").1 (by decide)
      ⟨"FOO", "a"⟩ (by decide),
   (lookup_duplicate_semantics devDup "FOO" "FOO").2.1,
   (lookup_duplicate_semantics devDup "FOO" "FOO").2.2⟩

section SetValue

lemma set_first_match_eq_none {ps : List ConfigPair} {v : String} (nv : String)
    (h : ∀ p ∈ ps, p.var ≠ v) : set_first_match ps v nv = none := by
  induction ps with
  | nil => rfl
  | cons p rest ih =>
    unfold set_first_match
    rw [if_neg (h p (List.mem_cons_self p rest)), ih (fun q hq => h q (List.mem_cons_of_mem p hq))]

lemma set_first_match_found (l₁ : List ConfigPair) (p : ConfigPair)
    (l₂ : List ConfigPair) {v : String} (nv : String)
    (h1 : ∀ q ∈ l₁, q.var ≠ v) (h2 : p.var = v) :
    set_first_match (l₁ ++ p :: l₂) v nv = some (l₁ ++ ⟨p.var, nv⟩ :: l₂) := by
  induction l₁ with
  | nil => simp [set_first_match, h2]
  | cons q rest ih =>
    rw [List.cons_append, set_first_match,
      if_neg (h1 q (List.mem_cons_self q rest)),
      ih (fun r hr => h1 r (List.mem_cons_of_mem q hr)), List.cons_append]

end SetValue

/-- C4: `set_config_value` on an `SDR_`-prefixed variable fails leaving
the device untouched when there is no SDR section, and likewise when no
SDR pair carries the stripped name; when a first SDR match exists it is
overwritten in place.  On an unprefixed variable the first device-scope
match is overwritten in place, else the first SDR-scope match, and when
the variable is found in neither scope a new pair is appended to the end
of the device-level pairs and the call succeeds — auto-creation happens
only in that last case. -/
theorem set_config_value_spec (d : Device) (v nv : String) :
    (startsWithSDR v = true → d.sdr = none → set_config_value d v nv = (false, d)) ∧
    (∀ s, startsWithSDR v = true → d.sdr = some s →
      (∀ q ∈ s.pairs, q.var ≠ stripSDR v) → set_config_value d v nv = (false, d)) ∧
    (startsWithSDR v = false → (∀ q ∈ d.pairs, q.var ≠ v) →
      get_sdr_config_value d v = none →
      set_config_value d v nv = (true, { d with pairs := d.pairs ++ [⟨v, nv⟩] })) ∧
    (∀ l₁ p l₂, startsWithSDR v = false → d.pairs = l₁ ++ p :: l₂ →
      (∀ q ∈ l₁, q.var ≠ v) → p.var = v →
      set_config_value d v nv = (true, { d with pairs := l₁ ++ ⟨p.var, nv⟩ :: l₂ })) ∧
    (∀ s l₁ p l₂, startsWithSDR v = true → d.sdr = some s →
      s.pairs = l₁ ++ p :: l₂ → (∀ q ∈ l₁, q.var ≠ stripSDR v) → p.var = stripSDR v →
      set_config_value d v nv =
        (true, { d with sdr := some { s with pairs := l₁ ++ ⟨p.var, nv⟩ :: l₂ } })) ∧
    (∀ s l₁ p l₂, startsWithSDR v = false → (∀ q ∈ d.pairs, q.var ≠ v) →
      d.sdr = some s → s.pairs = l₁ ++ p :: l₂ → (∀ q ∈ l₁, q.var ≠ v) → p.var = v →
      set_config_value d v nv =
        (true, { d with sdr := some { s with pairs := l₁ ++ ⟨p.var, nv⟩ :: l₂ } })) := by
  refine ⟨?_, ?_, ?_, ?_, ?_, ?_⟩
  · intro hv hs
    simp [set_config_value, hv, hs]
  · intro s hv hs hnone
    simp [set_config_value, hv, hs, set_first_match_eq_none nv hnone]
  · intro hv hdev hsdr
    rw [set_config_value]
    simp only [hv, Bool.false_eq_true, if_false]
    rw [set_first_match_eq_none nv hdev]
    rcases hs : d.sdr with _ | s
    · rfl
    · rw [get_sdr_config_value, hs] at hsdr
      dsimp only at hsdr ⊢
      have hfind : s.pairs.find? (fun p => p.var = v) = none :=
        Option.map_eq_none'.mp hsdr
      have hall : ∀ q ∈ s.pairs, q.var ≠ v := fun q hq => by
        simpa using List.find?_eq_none.mp hfind q hq
      rw [set_first_match_eq_none nv hall]
  · intro l₁ p l₂ hv hpairs h1 h2
    rw [set_config_value]
    simp only [hv, Bool.false_eq_true, if_false]
    rw [hpairs, set_first_match_found l₁ p l₂ nv h1 h2]
  · intro s l₁ p l₂ hv hs hpairs h1 h2
    rw [set_config_value]
    simp only [hv, if_true]
    rw [hs]
    dsimp only
    rw [hpairs, set_first_match_found l₁ p l₂ nv h1 h2]
  · intro s l₁ p l₂ hv hdev hs hpairs h1 h2
    rw [set_config_value]
    simp only [hv, Bool.false_eq_true, if_false]
    rw [set_first_match_eq_none nv hdev, hs]
    dsimp only
    rw [hpairs, set_first_match_found l₁ p l₂ nv h1 h2]

/-- Witness for C4: on `devShadow`, setting `SDR_MISSING` fails and
creates nothing, while setting the absent unprefixed `NEW` appends a new
device-scope pair. -/
theorem set_config_value_spec_witness :
    set_config_value devShadow "SDR_MISSING" "1" = (false, devShadow) ∧
    set_config_value devShadow "NEW" "42" =
      (true, { devShadow with pairs := devShadow.pairs ++ [⟨"NEW", "42"⟩] }) :=
  ⟨(set_config_value_spec devShadow "SDR_MISSING" "1").2.1 _ (by decide) rfl (by decide),
   (set_config_value_spec devShadow "NEW" "42").2.2.1 (by decide) (by decide) (by decide)⟩

section Conversion

lemma convert_raw_to_real_eq (d : Device) (raw ms rs : String) (m e : ℤ) (rv : ℚ)
    (hc : get_mval_rexp_from_anywhere d = (some ms, some rs))
    (hm : parseIntPy ms = some m) (he : parseIntPy rs = some e)
    (hr : parseRawPy raw = some rv) :
    convert_raw_to_real d raw = .ok ((m : ℚ) * rv * (10 : ℚ) ^ e) := by
  unfold convert_raw_to_real
  rw [hc]
  dsimp only
  rw [hm, he, hr]

lemma convert_real_to_raw_eq (d : Device) (real ms rs : String) (m e : ℤ) (rv : ℚ)
    (hc : get_mval_rexp_from_anywhere d = (some ms, some rs))
    (hm : parseIntPy ms = some m) (he : parseIntPy rs = some e)
    (hr : pyFloat real = some rv) :
    convert_real_to_raw d real =
      (if (m : ℚ) * (10 : ℚ) ^ e = 0 then .error .divisionByZero
       else .ok (pyRound (rv / ((m : ℚ) * (10 : ℚ) ^ e)))) := by
  unfold convert_real_to_raw
  rw [hc]
  dsimp only
  rw [hm, he, hr]

lemma pyRound_intCast (n : ℤ) : pyRound ((n : ℤ) : ℚ) = n := by
  unfold pyRound
  simp [Int.floor_intCast]

lemma pyRound_nearest (q : ℚ) : |q - (pyRound q : ℚ)| ≤ 1 / 2 := by
  have hfl : (⌊q⌋ : ℚ) ≤ q := Int.floor_le q
  have hfu : q < (⌊q⌋ : ℚ) + 1 := Int.lt_floor_add_one q
  unfold pyRound
  dsimp only
  split_ifs with h1 h2 h3 <;> rw [abs_le] <;> constructor <;> push_cast <;> linarith

lemma pyRound_tie_even (q : ℚ) (h : q - ((⌊q⌋ : ℤ) : ℚ) = 1 / 2) :
    pyRound q % 2 = 0 := by
  unfold pyRound
  dsimp only
  split_ifs with h1 h2 h3
  · linarith
  · linarith
  · exact h3
  · omega

end Conversion

/-- A device whose `M_VAL` parses to zero. -/
def devZero : Device :=
  ⟨some "zero", [⟨"M_VAL", "0"⟩, ⟨"R_EXP", "5"⟩], none⟩

/-- C5: once the coefficients resolve and all parses succeed,
`convert_real_to_raw` fails with the division-by-zero diagnostic exactly
when the denominator `M_VAL * 10 ^ R_EXP` is zero — in exact arithmetic,
exactly when `M_VAL` parses to `0`, for every `R_EXP` and every real
input; conversely a division-by-zero failure can only arise from a zero
denominator. -/
theorem convert_real_to_raw_division_by_zero (d : Device) (real ms rs : String)
    (m e : ℤ) (rv : ℚ)
    (hc : get_mval_rexp_from_anywhere d = (some ms, some rs))
    (hm : parseIntPy ms = some m) (he : parseIntPy rs = some e)
    (hr : pyFloat real = some rv) :
    (convert_real_to_raw d real = .error .divisionByZero ↔
      (m : ℚ) * (10 : ℚ) ^ e = 0) ∧
    (m = 0 → convert_real_to_raw d real = .error .divisionByZero) ∧
    ((m : ℚ) * (10 : ℚ) ^ e = 0 ↔ m = 0) ∧
    (∀ real2 : String, convert_real_to_raw d real2 = .error .divisionByZero →
      ∃ rv2, pyFloat real2 = some rv2 ∧ (m : ℚ) * (10 : ℚ) ^ e = 0) := by
  have heq := convert_real_to_raw_eq d real ms rs m e rv hc hm he hr
  have hzero : (m : ℚ) * (10 : ℚ) ^ e = 0 ↔ m = 0 := by
    constructor
    · intro h
      rcases mul_eq_zero.mp h with h0 | h0
      · exact_mod_cast h0
      · exact absurd h0 (zpow_ne_zero e (by norm_num))
    · intro h
      rw [h]
      simp
  refine ⟨?_, ?_, hzero, ?_⟩
  · constructor
    · intro h
      by_contra hden
      rw [heq, if_neg hden] at h
      simp at h
    · intro hden
      rw [heq, if_pos hden]
  · intro hm0
    rw [heq, if_pos (hzero.mpr hm0)]
  · intro real2 h
    rcases hr2 : pyFloat real2 with _ | rv2
    · unfold convert_real_to_raw at h
      rw [hc] at h
      dsimp only at h
      rw [hm, he, hr2] at h
      simp at h
    · rw [convert_real_to_raw_eq d real2 ms rs m e rv2 hc hm he hr2] at h
      by_cases hden : (m : ℚ) * (10 : ℚ) ^ e = 0
      · exact ⟨rv2, rfl, hden⟩
      · rw [if_neg hden] at h
        simp at h

/-- Witness for C5: on `devZero` (`M_VAL = "0"`, `R_EXP = "5"`), converting
the real value `"1.5"` fails with the division-by-zero diagnostic. -/
theorem convert_real_to_raw_division_by_zero_witness :
    convert_real_to_raw devZero "1.5" = .error .divisionByZero :=
  (convert_real_to_raw_division_by_zero devZero "1.5" "0" "5" 0 5 (3 / 2)
    (by decide) (by decide) (by decide)
    (by simp +decide [pyFloat, pyFloatCore, decNat]; norm_num)).2.1 rfl

/-- C7: `convert_raw_to_real` parses the coefficients with hexadecimal
auto-detection (base 16 under a `0x`/`0X` prefix, else base 10 with an
optional leading minus sign), parses the raw input as a hex integer when
prefixed and as a float otherwise, and returns
`M_VAL * rawValue * 10 ^ R_EXP`; with `M_VAL = 2`, `R_EXP = -1` and raw
input `100` it returns exactly `20`. -/
theorem convert_raw_to_real_formula (d : Device) (raw ms rs : String)
    (m e : ℤ) (rv : ℚ)
    (hc : get_mval_rexp_from_anywhere d = (some ms, some rs))
    (hm : parseIntPy ms = some m) (he : parseIntPy rs = some e)
    (hr : parseRawPy raw = some rv) :
    convert_raw_to_real d raw = .ok ((m : ℚ) * rv * (10 : ℚ) ^ e) ∧
    parseIntPy "0x1A" = some 26 ∧
    parseIntPy "-3" = some (-3) ∧
    parseRawPy "0x64" = some 100 ∧
    parseRawPy "2.5" = some (5 / 2) ∧
    convert_raw_to_real devBoth "100" = .ok 20 := by
  refine ⟨convert_raw_to_real_eq d raw ms rs m e rv hc hm he hr,
    by decide, by decide, ?_, ?_, ?_⟩
  · simp +decide [parseRawPy, hexNat, hexDigitVal, startsWith0x]
  · simp +decide [parseRawPy, pyFloat, pyFloatCore, decNat, startsWith0x]
    norm_num
  · have h := convert_raw_to_real_eq devBoth "100" "2" "-1" 2 (-1) 100
      (by decide) (by decide) (by decide)
      (by simp +decide [parseRawPy, pyFloat, pyFloatCore, decNat, startsWith0x])
    rw [h]
    norm_num

/-- Witness for C7: the formula instantiated on `devBoth` with raw input
`"100"`. -/
theorem convert_raw_to_real_formula_witness :
    convert_raw_to_real devBoth "100" = .ok (((2 : ℤ) : ℚ) * 100 * (10 : ℚ) ^ (-1 : ℤ)) :=
  (convert_raw_to_real_formula devBoth "100" "2" "-1" 2 (-1) 100
    (by decide) (by decide) (by decide)
    (by simp +decide [parseRawPy, pyFloat, pyFloatCore, decNat, startsWith0x])).1

/-- C8: `convert_real_to_raw` returns the nearest integer to
`realValue / (M_VAL * 10 ^ R_EXP)` (distance at most one half), breaking
exact halfway cases toward the even neighbour (Python's `round`); with
`M_VAL = 2`, `R_EXP = -1` and real input `20.0` it returns exactly `100`. -/
theorem convert_real_to_raw_rounding (d : Device) (real ms rs : String)
    (m e : ℤ) (rv : ℚ)
    (hc : get_mval_rexp_from_anywhere d = (some ms, some rs))
    (hm : parseIntPy ms = some m) (he : parseIntPy rs = some e)
    (hr : pyFloat real = some rv)
    (hden : (m : ℚ) * (10 : ℚ) ^ e ≠ 0) :
    convert_real_to_raw d real = .ok (pyRound (rv / ((m : ℚ) * (10 : ℚ) ^ e))) ∧
    (∀ q : ℚ, |q - (pyRound q : ℚ)| ≤ 1 / 2) ∧
    (∀ q : ℚ, q - ((⌊q⌋ : ℤ) : ℚ) = 1 / 2 → pyRound q % 2 = 0) ∧
    convert_real_to_raw devBoth "20.0" = .ok 100 := by
  refine ⟨?_, pyRound_nearest, pyRound_tie_even, ?_⟩
  · rw [convert_real_to_raw_eq d real ms rs m e rv hc hm he hr, if_neg hden]
  · have h := convert_real_to_raw_eq devBoth "20.0" "2" "-1" 2 (-1) 20
      (by decide) (by decide) (by decide)
      (by simp +decide [pyFloat, pyFloatCore, decNat])
    rw [h, if_neg (by norm_num)]
    have h100 : (20 : ℚ) / (((2 : ℤ) : ℚ) * (10 : ℚ) ^ (-1 : ℤ)) = ((100 : ℤ) : ℚ) := by
      norm_num
    rw [h100, pyRound_intCast]

/-- Witness for C8: the rounding formula instantiated on `devBoth` with
real input `"20.0"`. -/
theorem convert_real_to_raw_rounding_witness :
    convert_real_to_raw devBoth "20.0" =
      .ok (pyRound ((20 : ℚ) / (((2 : ℤ) : ℚ) * (10 : ℚ) ^ (-1 : ℤ)))) :=
  (convert_real_to_raw_rounding devBoth "20.0" "2" "-1" 2 (-1) 20
    (by decide) (by decide) (by decide)
    (by simp +decide [pyFloat, pyFloatCore, decNat])
    (by norm_num)).1

/-- C6: for a device whose coefficients resolve with nonzero `M_VAL`,
converting a raw integer value to a real value and converting that real
value back yields exactly the original integer. -/
theorem convert_round_trip (d : Device) (rawStr realStr ms rs : String)
    (m e w : ℤ) (q : ℚ)
    (hc : get_mval_rexp_from_anywhere d = (some ms, some rs))
    (hm : parseIntPy ms = some m) (he : parseIntPy rs = some e)
    (hm0 : m ≠ 0)
    (hraw : parseRawPy rawStr = some ((w : ℤ) : ℚ))
    (hreal : convert_raw_to_real d rawStr = .ok q)
    (hq : pyFloat realStr = some q) :
    convert_real_to_raw d realStr = .ok w := by
  have h1 := convert_raw_to_real_eq d rawStr ms rs m e ((w : ℤ) : ℚ) hc hm he hraw
  rw [h1] at hreal
  have hqe : q = (m : ℚ) * ((w : ℤ) : ℚ) * (10 : ℚ) ^ e := (Except.ok.inj hreal).symm
  have hden : (m : ℚ) * (10 : ℚ) ^ e ≠ 0 :=
    mul_ne_zero (Int.cast_ne_zero.mpr hm0) (zpow_ne_zero e (by norm_num))
  rw [convert_real_to_raw_eq d realStr ms rs m e q hc hm he hq, if_neg hden]
  have hdiv : q / ((m : ℚ) * (10 : ℚ) ^ e) = ((w : ℤ) : ℚ) := by
    rw [hqe, show (m : ℚ) * ((w : ℤ) : ℚ) * (10 : ℚ) ^ e =
      ((w : ℤ) : ℚ) * ((m : ℚ) * (10 : ℚ) ^ e) from by ring,
      mul_div_cancel_right₀ _ hden]
  rw [hdiv, pyRound_intCast]

/-- Witness for C6: on `devBoth` the raw value `"100"` maps to the real
value `20` and back to the integer `100`. -/
theorem convert_round_trip_witness :
    convert_real_to_raw devBoth "20.0" = .ok 100 :=
  convert_round_trip devBoth "100" "20.0" "2" "-1" 2 (-1) 100 20
    (by decide) (by decide) (by decide) (by decide)
    (by simp +decide [parseRawPy, pyFloat, pyFloatCore, decNat, startsWith0x])
    (by
      rw [convert_raw_to_real_eq devBoth "100" "2" "-1" 2 (-1) 100
        (by decide) (by decide) (by decide)
        (by simp +decide [parseRawPy, pyFloat, pyFloatCore, decNat, startsWith0x])]
      norm_num)
    (by simp +decide [pyFloat, pyFloatCore, decNat])

/-- Python `s.strip()`: whitespace removed from both ends. -/
def py_strip (s : String) : String :=
  String.mk (((s.data.dropWhile Char.isWhitespace).reverse.dropWhile
    Char.isWhitespace).reverse)

/-- Python `s.lower()` on ASCII letters. -/
def py_lower (s : String) : String :=
  String.mk (s.data.map (fun c =>
    if 'A' ≤ c ∧ c ≤ 'Z' then Char.ofNat (c.toNat + 32) else c))

/-- Python `f"0x{i:x}"`: lowercase hex with the sign placed after the
`0x` prefix for negative inputs. -/
def py_hex_fmt (i : ℤ) : String :=
  if i < 0 then "0x-" ++ String.mk (Nat.toDigits 16 (-i).toNat)
  else "0x" ++ String.mk (Nat.toDigits 16 i.toNat)

/-- One `input(...)` call against a scripted list of operator inputs; an
exhausted script reads as empty input. -/
def next_input : List String → String × List String
  | [] => ("", [])
  | x :: xs => (x, xs)

/-- The observable interaction events of the threshold session: each
constructor corresponds to one `input(...)` prompt. -/
inductive PromptEv where
  | thresholdPrompt (name : String)
  | maskPrompt (name : String)
deriving DecidableEq

/-- The `current_values` dict of `interactive_set_thresholds`, restricted
to one key: the LAST SDR pair whose variable is the given threshold
parameter, or `none` when the parameter is absent from SDR scope (or not
a threshold parameter). -/
def cur_val (s : Sdr) (tparams : List String) (param : String) : Option String :=
  if tparams.contains param then
    (s.pairs.reverse.find? (fun p => p.var = param)).map (fun p => p.val)
  else none

/-- The fixed threshold prompting order of the source. -/
def ordered_params : List String :=
  ["LOWER_NON_RECOVERABLE", "LOWER_CRITICAL", "LOWER_NON_CRITICAL",
   "UPPER_NON_CRITICAL", "UPPER_CRITICAL", "UPPER_NON_RECOVERABLE",
   "SEN_MIN", "SEN_MAX", "NOMINAL_MIN", "NOMINAL_MAX"]

/-- The fixed mask prompting order of the source. -/
def mask_params : List String := ["LWR_T_MASK", "UPR_T_MASK", "S_R_T_MASK"]

/-- The threshold prompting loop: parameters absent from the
`current_values` dict are skipped without a prompt; for a present
parameter one input is consumed; empty input changes nothing; when the
current value converts to a real value the input is treated as a real
value and converted back to a hex-formatted raw value (a failed
conversion is skipped), otherwise the input is recorded verbatim. -/
def threshold_loop (d : Device) (s : Sdr) (tparams : List String) :
    List String → List String →
      List (String × String) × List PromptEv × List String
  | [], inputs => ([], [], inputs)
  | param :: rest, inputs =>
    match cur_val s tparams param with
    | none => threshold_loop d s tparams rest inputs
    | some cv =>
      let pr := next_input inputs
      let inpT := py_strip pr.1
      let r := threshold_loop d s tparams rest pr.2
      let current_real : Option ℚ :=
        if (get_mval_rexp_from_anywhere d).1.isSome then
          (convert_raw_to_real d cv).toOption
        else none
      let newcs : List (String × String) :=
        if inpT = "" then []
        else
          match current_real with
          | some _ =>
            match convert_real_to_raw d inpT with
            | .ok rawv => [(param, py_hex_fmt rawv)]
            | .error _ => []
          | none => [(param, inpT)]
      (newcs ++ r.1, .thresholdPrompt param :: r.2.1, r.2.2)

/-- The mask prompting loop: every mask parameter is prompted regardless
of presence (the stored value is only displayed); non-empty input is
recorded verbatim. -/
def mask_loop (d : Device) :
    List String → List String →
      List (String × String) × List PromptEv × List String
  | [], inputs => ([], [], inputs)
  | mname :: rest, inputs =>
    let pr := next_input inputs
    let inpT := py_strip pr.1
    let r := mask_loop d rest pr.2
    ((if inpT = "" then [] else [(mname, inpT)]) ++ r.1,
      .maskPrompt mname :: r.2.1, r.2.2)

/-- `interactive_set_thresholds` against a scripted input list: with no
SDR section it reports an error and returns the empty change set without
prompting; otherwise it walks the fixed threshold order and then the
fixed mask order.  The document is only read, never mutated — the changes
are returned for the caller to apply. -/
def interactive_set_thresholds (d : Device) (threshold_params : List String)
    (inputs : List String) : List (String × String) × List PromptEv :=
  match d.sdr with
  | none => ([], [])
  | some s =>
    let r1 := threshold_loop d s threshold_params ordered_params inputs
    let r2 := mask_loop d mask_params r1.2.2
    (r1.1 ++ r2.1, r1.2.1 ++ r2.2.1)

lemma mask_loop_prompts (d : Device) (names : List String) :
    ∀ inputs, (mask_loop d names inputs).2.1 = names.map PromptEv.maskPrompt := by
  induction names with
  | nil => intro inputs; rfl
  | cons n rest ih =>
    intro inputs
    unfold mask_loop
    dsimp only
    rw [ih]
    rfl

/-- A device that exists but has no SDR section. -/
def devNoSdr : Device := ⟨some "plain", [⟨"M_VAL", "2"⟩, ⟨"R_EXP", "-1"⟩], none⟩

/-- C10: for a device with no SDR section, `interactive_set_thresholds`
returns an empty change set after issuing no threshold or mask prompt at
all (and, reading only, mutates nothing), for every scripted input and
every threshold-parameter set; by contrast, any device with an SDR
section is always prompted for all three mask parameters. -/
theorem interactive_set_thresholds_no_sdr (d : Device)
    (tp inputs : List String) :
    (d.sdr = none → interactive_set_thresholds d tp inputs = ([], [])) ∧
    (∀ s, d.sdr = some s → ∀ mn ∈ mask_params,
      PromptEv.maskPrompt mn ∈ (interactive_set_thresholds d tp inputs).2) := by
  constructor
  · intro h
    unfold interactive_set_thresholds
    rw [h]
  · intro s hs mn hmn
    unfold interactive_set_thresholds
    rw [hs]
    dsimp only
    rw [mask_loop_prompts]
    exact List.mem_append_right _ (List.mem_map_of_mem PromptEv.maskPrompt hmn)

/-- Witness for C10: on `devNoSdr` the session returns no changes and no
prompts even with pending operator input, and on `devShadow` (which has
an SDR section) all three mask prompts are issued. -/
theorem interactive_set_thresholds_no_sdr_witness :
    interactive_set_thresholds devNoSdr ordered_params ["5", "y"] = ([], []) ∧
    PromptEv.maskPrompt "S_R_T_MASK" ∈
      (interactive_set_thresholds devShadow ordered_params []).2 :=
  ⟨(interactive_set_thresholds_no_sdr devNoSdr ordered_params ["5", "y"]).1 rfl,
   (interactive_set_thresholds_no_sdr devShadow ordered_params []).2 _ rfl
     "S_R_T_MASK" (by decide)⟩

/-- The batch-application loop of the `--set-thres` confirm branch:
apply every pending change through `set_config_value` in recorded order,
threading the mutated document and counting successes. -/
def apply_changes : Device → List (String × String) → Device × Nat
  | d, [] => (d, 0)
  | d, c :: cs =>
    let r := set_config_value d c.1 c.2
    let rest := apply_changes r.2 cs
    (rest.1, (if r.1 then 1 else 0) + rest.2)

/-- The success flag of each `set_config_value` call made by
`apply_changes`, in order. -/
def step_results : Device → List (String × String) → List Bool
  | _, [] => []
  | d, c :: cs =>
    let r := set_config_value d c.1 c.2
    r.1 :: step_results r.2 cs

/-- The confirm-and-apply phase of `main`: on operator confirmation
(`y`, case-insensitive) apply all pending changes in order and save
exactly when every change succeeded; any other answer cancels with no
mutation.  Returns the final document, the success count and the saved
flag. -/
def apply_and_save (d : Device) (confirm : String)
    (changes : List (String × String)) : Device × Nat × Bool :=
  if py_lower (py_strip confirm) = "y" then
    let r := apply_changes d changes
    (r.1, r.2, decide (r.2 = changes.length))
  else (d, 0, false)

lemma apply_changes_count (d : Device) (cs : List (String × String)) :
    (apply_changes d cs).2 = ((step_results d cs).filter (fun b => b)).length := by
  induction cs generalizing d with
  | nil => rfl
  | cons c rest ih =>
    unfold apply_changes step_results
    dsimp only
    rcases hb : (set_config_value d c.1 c.2).1 <;>
      simp [List.filter, hb, ih] <;> omega

lemma step_results_length (d : Device) (cs : List (String × String)) :
    (step_results d cs).length = cs.length := by
  induction cs generalizing d with
  | nil => rfl
  | cons c rest ih =>
    unfold step_results
    dsimp only
    rw [List.length_cons, ih, List.length_cons]

lemma filter_length_eq_iff_all (l : List Bool) :
    ((l.filter (fun b => b)).length = l.length) ↔ l.all (fun b => b) = true := by
  induction l with
  | nil => simp
  | cons b bs ih =>
    have hle := List.length_filter_le (fun x : Bool => x) bs
    cases b <;> simp [List.filter, ih] <;> omega

/-- C9: once the operator confirms, every pending change is applied via
`set_config_value` in recorded order on the in-memory document (failures
roll nothing back: the final document is the fold of all the updates),
and the file is saved exactly when ALL changes succeeded; the reported
success count is the number of successful steps. -/
theorem apply_and_save_spec (d : Device) (confirm : String)
    (changes : List (String × String))
    (hc : py_lower (py_strip confirm) = "y") :
    (apply_and_save d confirm changes).1 = (apply_changes d changes).1 ∧
    (apply_and_save d confirm changes).2.1 =
      ((step_results d changes).filter (fun b => b)).length ∧
    ((apply_and_save d confirm changes).2.2 = true ↔
      (step_results d changes).all (fun b => b) = true) := by
  unfold apply_and_save
  rw [if_pos hc]
  dsimp only
  refine ⟨rfl, apply_changes_count d changes, ?_⟩
  rw [show (apply_changes d changes).2 =
    ((step_results d changes).filter (fun b => b)).length from
      apply_changes_count d changes]
  simp only [decide_eq_true_eq]
  rw [show changes.length = (step_results d changes).length from
    (step_results_length d changes).symm]
  exact filter_length_eq_iff_all (step_results d changes)

/-- Witness for C9: on `devShadow` with a succeeding change (`FOO`) and a
failing one (`SDR_MISSING`), the confirmed apply phase reports the
partial success count and does not save. -/
theorem apply_and_save_spec_witness :
    (apply_and_save devShadow "y" [("FOO", "1"), ("SDR_MISSING", "2")]).1 =
      (apply_changes devShadow [("FOO", "1"), ("SDR_MISSING", "2")]).1 ∧
    (apply_and_save devShadow "y" [("FOO", "1"), ("SDR_MISSING", "2")]).2.1 =
      ((step_results devShadow [("FOO", "1"), ("SDR_MISSING", "2")]).filter
        (fun b => b)).length ∧
    ((apply_and_save devShadow "y" [("FOO", "1"), ("SDR_MISSING", "2")]).2.2 = true ↔
      (step_results devShadow [("FOO", "1"), ("SDR_MISSING", "2")]).all
        (fun b => b) = true) :=
  apply_and_save_spec devShadow "y" [("FOO", "1"), ("SDR_MISSING", "2")] (by decide)

end PMC
